import Mathlib

/-!
Verification of the conversation-orchestration core of the LifeOS assistant.

The Python modules are shallowly embedded: pure functions become Lean
functions; the SQLite tables behind the memory store and the conversation
history manager become explicit lists of rows threaded through the
operations; Python exceptions become `Except` values.  Machine arithmetic in
the sources is plain Python `int`/`float` over small values; integers are
embedded as `Nat`/`Int`, float literals (the classifier confidences) as `ℚ`.
-/

namespace LifeOS

/-! ## Python string primitives used by the sources -/

/-- ASCII lower-casing of one character (kept kernel-reducible). -/
def lowerChar (c : Char) : Char :=
  if 'A' ≤ c ∧ c ≤ 'Z' then Char.ofNat (c.toNat + 32) else c

/-- Python `str.lower()`.  ASCII letters are folded; the keyword tables of
this repository are Chinese, which Python's `lower` also leaves unchanged,
so the two agree on every string the claims touch. -/
def pyLower (s : String) : String := ⟨s.data.map lowerChar⟩

/-- Python `str.strip()`: drop leading and trailing whitespace. -/
def pyStrip (s : String) : String :=
  ⟨((s.data.dropWhile Char.isWhitespace).reverse.dropWhile
      Char.isWhitespace).reverse⟩

/-- Python substring containment `sub in s`. -/
def strContains (s sub : String) : Bool :=
  s.toList.tails.any (fun t => sub.toList.isPrefixOf t)

/-! ## `modules/conversation_flow.py` — the intent classifier

The regex patterns of `EMOTION_PATTERNS` / `TASK_PATTERNS` use only
concatenation, literal alternation groups and `.*`; they are embedded as
lists of `RItem`s together with their source text (the source text only
feeds the `pattern:...` signal strings). -/

/-- One item of an embedded regex: a group of literal alternatives
`(a|b|c)` (a single literal is a one-element group), or `.*`, which in
Python matches any run of characters other than a newline. -/
inductive RItem where
  | lit (alts : List String)
  | anyStar
deriving Repr

/-- Does the item list match a prefix of `cs`? -/
def matchFrom : List RItem → List Char → Bool
  | [], _ => true
  | (RItem.lit alts) :: rest, cs =>
      alts.any (fun a => a.toList.isPrefixOf cs && matchFrom rest (cs.drop a.toList.length))
  | RItem.anyStar :: rest, cs =>
      (List.range (cs.length + 1)).any (fun n =>
        (cs.take n).all (fun c => c != '\n') && matchFrom rest (cs.drop n))

/-- Python `re.search(pattern, text)` viewed as a Bool: the pattern matches
starting at some position of `text`. -/
def reSearch (items : List RItem) (s : String) : Bool :=
  s.toList.tails.any (fun t => matchFrom items t)

/-- A pattern as the classifier stores it: regex source text plus its
embedding. -/
structure RPattern where
  src : String
  items : List RItem

def EMOTION_KEYWORDS : List String :=
  [ "累", "疲惫", "难受", "焦虑", "崩溃", "想哭", "失落", "心烦",
    "压力大", "烦躁", "受不了", "痛苦", "抑郁", "绝望", "无助",
    "孤独", "害怕", "担心", "紧张", "不安", "迷茫", "困惑",
    "开心", "兴奋", "激动", "感动", "幸福", "满足",
    "我感觉", "我很", "我觉得", "心里", "情绪" ]

def TASK_KEYWORDS : List String :=
  [ "要做", "完成", "今天要", "明天要", "清单", "事项", "排期",
    "计划", "提醒", "安排", "日程", "待办", "任务", "工作",
    "准备", "整理", "处理", "解决", "学习", "复习", "写",
    "看", "读", "买", "去", "打电话", "发", "回复", "联系" ]

def DECISION_KEYWORDS : List String :=
  [ "应该", "怎么做", "选哪个", "优先", "利弊", "建议",
    "帮我决定", "不知道选", "犹豫", "纠结", "选择",
    "要不要", "该不该", "可以吗", "好不好", "值得吗" ]

def EMOTION_PATTERNS : List RPattern :=
  [ ⟨"我(感觉|觉得|很|太|好|超级|有点)(累|难受|焦虑|烦|开心)",
     [RItem.lit ["我"],
      RItem.lit ["感觉", "觉得", "很", "太", "好", "超级", "有点"],
      RItem.lit ["累", "难受", "焦虑", "烦", "开心"]]⟩,
    ⟨"(压力|心情)(好|很|太)(大|差|糟|好)",
     [RItem.lit ["压力", "心情"],
      RItem.lit ["好", "很", "太"],
      RItem.lit ["大", "差", "糟", "好"]]⟩,
    ⟨"受不了", [RItem.lit ["受不了"]]⟩,
    ⟨"(想|要)哭", [RItem.lit ["想", "要"], RItem.lit ["哭"]]⟩,
    ⟨"心里(不舒服|难受|空空的)",
     [RItem.lit ["心里"], RItem.lit ["不舒服", "难受", "空空的"]]⟩ ]

def TASK_PATTERNS : List RPattern :=
  [ ⟨"今天(要|得|需要)(做|完成|处理)",
     [RItem.lit ["今天"], RItem.lit ["要", "得", "需要"],
      RItem.lit ["做", "完成", "处理"]]⟩,
    ⟨"明天(要|得|需要)(做|完成|处理)",
     [RItem.lit ["明天"], RItem.lit ["要", "得", "需要"],
      RItem.lit ["做", "完成", "处理"]]⟩,
    ⟨"帮我(安排|计划|整理|列出)",
     [RItem.lit ["帮我"], RItem.lit ["安排", "计划", "整理", "列出"]]⟩,
    ⟨"有.*件事", [RItem.lit ["有"], RItem.anyStar, RItem.lit ["件事"]]⟩,
    ⟨".*清单", [RItem.anyStar, RItem.lit ["清单"]]⟩ ]

inductive ConversationMode where
  | emotionSupport
  | actionAssistant
  | mixed
  | unknown
deriving DecidableEq, Repr

inductive IntentType where
  | emotion
  | task
  | decision
  | mixed
  | casual
  | unknown
deriving DecidableEq, Repr

structure IntentClassification where
  intent : IntentType
  confidence : ℚ
  signals : List String
  suggestedMode : ConversationMode
  briefReason : String
deriving DecidableEq, Repr

/-- Keyword and pattern signals collected by `IntentClassifier.classify` for
one keyword table and one pattern table (keywords first, then the
`pattern:` entries, exactly as the Python loops append them). -/
def collectSignals (keywords : List String) (patterns : List RPattern)
    (text : String) : List String :=
  keywords.filter (fun k => strContains text k) ++
    (patterns.filter (fun p => reSearch p.items text)).map
      (fun p => "pattern:" ++ (p.src.toList.take 20).asString)

namespace IntentClassifier

/-- `IntentClassifier.classify` from `modules/conversation_flow.py`. -/
def classify (userInput : String) : IntentClassification :=
  let text := pyStrip (pyLower userInput)
  let emotionSignals := collectSignals EMOTION_KEYWORDS EMOTION_PATTERNS text
  let taskSignals := collectSignals TASK_KEYWORDS TASK_PATTERNS text
  let decisionSignals := DECISION_KEYWORDS.filter (fun k => strContains text k)
  let emotionScore := emotionSignals.length
  let taskScore := taskSignals.length
  let decisionScore := decisionSignals.length
  if 0 < emotionScore ∧ 0 < taskScore then
    { intent := IntentType.mixed, confidence := 0.85,
      signals := emotionSignals ++ taskSignals,
      suggestedMode := ConversationMode.mixed,
      briefReason := "同时检测到情绪表达和任务请求，建议先情绪支持再转行动" }
  else if 2 ≤ emotionScore ∨ (emotionScore = 1 ∧ taskScore = 0) then
    { intent := IntentType.emotion,
      confidence := min (0.7 + emotionScore * 0.1) 0.95,
      signals := emotionSignals,
      suggestedMode := ConversationMode.emotionSupport,
      briefReason := "检测到明确的情绪表达" }
  else if 2 ≤ taskScore then
    { intent := IntentType.task,
      confidence := min (0.7 + taskScore * 0.1) 0.95,
      signals := taskSignals,
      suggestedMode := ConversationMode.actionAssistant,
      briefReason := "检测到明确的任务请求" }
  else if 1 ≤ decisionScore then
    { intent := IntentType.decision, confidence := 0.75,
      signals := decisionSignals,
      suggestedMode := ConversationMode.actionAssistant,
      briefReason := "检测到决策咨询" }
  else if text.length < 10 ∨
      ["你好", "在吗", "干嘛", "聊天"].any (fun w => strContains text w) then
    { intent := IntentType.casual, confidence := 0.6,
      signals := ["short_text"],
      suggestedMode := ConversationMode.emotionSupport,
      briefReason := "简短输入或闲聊" }
  else
    { intent := IntentType.unknown, confidence := 0.4,
      signals := [],
      suggestedMode := ConversationMode.unknown,
      briefReason := "无法明确分类，需要澄清" }

end IntentClassifier

end LifeOS

namespace LifeOS

/-! ## `agents/tools.py` — task analysis and action decomposition -/

/-- `any(word in text for word in words)`. -/
def containsAny (text : String) (words : List String) : Bool :=
  words.any (fun w => strContains text w)

/-- One entry of the JSON array returned by `TaskAnalysisTool._run`. -/
structure AnalyzedTask where
  description : String
  category : String
  importance : Nat
  urgency : Nat
  estimatedMinutes : Nat
  canDefer : Bool
  reason : String
deriving DecidableEq, Repr

/-- The per-task body of the loop in `TaskAnalysisTool._run`
(`agents/tools.py`).  Each Python `default; if ...: v elif ...: v'` ladder
becomes the corresponding if/else chain ending in the default. -/
def analyzeTask (taskDesc : String) : AnalyzedTask :=
  let taskLower := pyLower taskDesc
  let urgency : Nat :=
    if containsAny taskLower ["明天", "今天", "马上", "立即", "紧急"] then 9
    else if containsAny taskLower ["本周", "这周", "近期"] then 7
    else if containsAny taskLower ["下周", "月底"] then 5
    else 5
  let importance : Nat :=
    if containsAny taskLower ["报告", "项目", "会议", "客户", "考试"] then 8
    else if containsAny taskLower ["邮件", "回复", "查看"] then 5
    else 6
  let category : String :=
    if containsAny taskLower ["工作", "项目", "会议", "报告", "客户"] then "work"
    else if containsAny taskLower ["学习", "学", "练习", "教程"] then "learning"
    else if containsAny taskLower ["运动", "健身", "健康"] then "health"
    else "personal"
  let estimatedMinutes : Nat :=
    if containsAny taskLower ["写", "做", "完成", "准备"] then 60
    else if containsAny taskLower ["回复", "查看", "确认"] then 10
    else if containsAny taskLower ["报告", "文档", "方案"] then 120
    else 30
  let canDefer : Bool := decide (urgency < 7) && decide (importance < 7)
  let reason : String :=
    if 9 ≤ urgency then "时间紧迫，必须尽快完成"
    else if 8 ≤ importance then "高重要性任务，优先处理"
    else if canDefer then "不紧急且重要性一般，可以延后"
    else "正常优先级任务"
  { description := taskDesc, category := category, importance := importance,
    urgency := urgency, estimatedMinutes := estimatedMinutes,
    canDefer := canDefer, reason := reason }

/-- `TaskAnalysisTool._run`: analyze every task of the list. -/
def taskAnalysisRun (tasks : List String) : List AnalyzedTask :=
  tasks.map analyzeTask

/-- High-priority test of `LifeOSWorkflow._priority_sorting_node`. -/
def highCond (t : AnalyzedTask) : Bool :=
  (decide (7 ≤ t.importance) && decide (7 ≤ t.urgency)) || decide (9 ≤ t.urgency)

/-- Medium-priority test of `LifeOSWorkflow._priority_sorting_node`. -/
def medCond (t : AnalyzedTask) : Bool :=
  (decide (6 ≤ t.importance) && decide (5 ≤ t.urgency)) || decide (8 ≤ t.importance)

/-- The partial state update produced by
`LifeOSWorkflow._priority_sorting_node` (`agents/workflow.py`). -/
structure PrioritySortResult where
  highPriority : List AnalyzedTask
  mediumPriority : List AnalyzedTask
  lowPriority : List AnalyzedTask
  deferrable : List String
deriving DecidableEq, Repr

/-- `_priority_sorting_node`: the Python loop appends each analyzed task to
the first bucket of the if/elif/else ladder that accepts it, and
independently appends the description of every `can_defer` task to
`deferrable`; appending in loop order is the same as filtering, which keeps
the source's per-bucket order. -/
def prioritySort (ts : List AnalyzedTask) : PrioritySortResult :=
  { highPriority := ts.filter highCond
    mediumPriority := ts.filter (fun t => !highCond t && medCond t)
    lowPriority := ts.filter (fun t => !highCond t && !medCond t)
    deferrable := (ts.filter (fun t => t.canDefer)).map (fun t => t.description) }

/-- One step dict built by `ActionDecompositionTool._run`; the Python key
`"type"` is the field `stype`. -/
structure ActionStepItem where
  stepNumber : Nat
  description : String
  estimatedMinutes : Int
  difficulty : String
  expectedOutcome : String
  stype : String
deriving DecidableEq, Repr

/-- `ActionDecompositionTool._generate_quick_start`. -/
def generateQuickStart (task : String) : String :=
  let taskLower := pyLower task
  if strContains taskLower "写" || strContains taskLower "报告" then
    "打开文档，写下3个核心要点"
  else if strContains taskLower "学" then "打开学习材料，浏览目录"
  else if strContains taskLower "准备" then "列出需要准备的清单"
  else if strContains taskLower "整理" then "新建文件夹，分类放置"
  else "打开与\x27" ++ task ++ "\x27相关的工具/文档"

/-- Round half to even, the rule Python's `format(x, ".0f")` applies; the
source formats an exact short ratio, modeled here on `ℚ`. -/
def roundHalfEven (q : ℚ) : Int :=
  let f := Int.floor q
  let frac := q - f
  if frac < 1/2 then f
  else if 1/2 < frac then f + 1
  else if f % 2 = 0 then f else f + 1

/-- The progress text `f"{((i+1)/num_steps)*100:.0f}"`. -/
def pctText (k : Nat) (numSteps : Int) : String :=
  toString (roundHalfEven ((k : ℚ) / (numSteps : ℚ) * 100))

/-- The dict returned by `ActionDecompositionTool._run`. -/
structure ActionDecompositionResult where
  task : String
  totalEstimatedMinutes : Int
  steps : List ActionStepItem
  quickStart : ActionStepItem
deriving DecidableEq, Repr

/-- `ActionDecompositionTool._run` (`agents/tools.py`).  `total_minutes` is
a Python `int`, embedded as `Int`; Python's floor division `//` is
`Int.fdiv`. -/
def actionDecompose (task : String) (totalMinutes : Int) :
    ActionDecompositionResult :=
  let firstStep : ActionStepItem :=
    { stepNumber := 1, description := generateQuickStart task,
      estimatedMinutes := 5, difficulty := "easy",
      expectedOutcome := "完成初始设置，进入工作状态", stype := "immediate" }
  let remainingTime := totalMinutes - 5
  let numSteps : Int := max 2 (Int.fdiv remainingTime 30)
  let coreSteps : List ActionStepItem :=
    (List.range numSteps.toNat).map (fun i =>
      { stepNumber := i + 2,
        description := "完成" ++ task ++ "的第" ++ toString (i + 1) ++ "部分",
        estimatedMinutes := min 30 (Int.fdiv remainingTime numSteps),
        difficulty := "medium",
        expectedOutcome := "完成进度 " ++ pctText (i + 1) numSteps ++ "%",
        stype := "core" })
  let mainSteps := firstStep :: coreSteps
  let steps := mainSteps ++
    [{ stepNumber := mainSteps.length + 1,
       description := "检查" ++ task ++ "的完整性",
       estimatedMinutes := 10, difficulty := "easy",
       expectedOutcome := "确保质量无误", stype := "review" }]
  { task := task, totalEstimatedMinutes := totalMinutes,
    steps := steps, quickStart := firstStep }

/-! ## `modules/memory.py` — memory store and manager

The SQLite table `memories` is a list of rows in rowid (insertion) order.
Wall-clock timestamps only ever enter the sources through whole-day
differences (`(now - created).days`), so times are embedded as day counts
(`Nat`).  `uuid.uuid4()` only has to produce fresh ids; the manager keeps a
counter for it. -/

inductive MemoryType where
  | preference
  | routine
  | fact
  | goal
  | pattern
  | constraint
deriving DecidableEq, Repr

/-- JSON-serializable values stored in `Memory.value` (the repository
stores booleans, strings and numbers). -/
inductive MemValue where
  | vBool (b : Bool)
  | vStr (s : String)
  | vInt (n : Int)
deriving DecidableEq, Repr

/-- Python `bool(value)` on a stored value. -/
def MemValue.pyBool : MemValue → Bool
  | .vBool b => b
  | .vStr s => s != ""
  | .vInt n => n != 0

/-- Python `str(value)` on a stored value. -/
def MemValue.pyStr : MemValue → String
  | .vBool true => "True"
  | .vBool false => "False"
  | .vStr s => s
  | .vInt n => toString n

/-- One row of the `memories` table (the dataclass `Memory`); the Python
field `type` is `mtype`. -/
structure Memory where
  memoryId : Nat
  userId : String
  mtype : MemoryType
  key : String
  value : MemValue
  createdAt : Nat
  lastUsed : Nat
  ttlDays : Option Nat
  confidence : ℚ
  source : String
deriving DecidableEq, Repr

/-- `Memory.is_expired`: `(now - created).days > ttl_days`. -/
def Memory.isExpired (now : Nat) (m : Memory) : Bool :=
  match m.ttlDays with
  | none => false
  | some ttl => decide (ttl < now - m.createdAt)

/-- Does inserting `m` conflict with row `r` — on the `memory_id` primary
key or on the `UNIQUE(user_id, type, key)` constraint?  `INSERT OR
REPLACE` first deletes every conflicting row. -/
def conflictsWith (m r : Memory) : Bool :=
  r.memoryId == m.memoryId ||
    (r.userId == m.userId && r.mtype == m.mtype && r.key == m.key)

/-- `MemoryStore.add_memory`: `INSERT OR REPLACE` deletes the rows that
conflict with the new row and appends it. -/
def addMemory (store : List Memory) (m : Memory) : List Memory :=
  store.filter (fun r => !conflictsWith m r) ++ [m]

/-- `MemoryStore.get_memory`: `SELECT * WHERE user_id = ? AND key = ?`
with `fetchone()`; without an ORDER BY, SQLite scans the `user_id` index
in rowid order, so the first matching row in insertion order is returned. -/
def getMemory (store : List Memory) (userId key : String) : Option Memory :=
  (store.filter (fun r => r.userId == userId && r.key == key)).head?

/-- `MemoryStore.get_memories` without a type filter:
`WHERE user_id = ? ORDER BY last_used DESC LIMIT ?`. -/
def getMemories (store : List Memory) (userId : String) (limit : Nat) :
    List Memory :=
  (List.insertionSort (fun a b => b.lastUsed ≤ a.lastUsed)
      (store.filter (fun r => r.userId == userId))).take limit

/-- `MemoryStore.update_last_used`. -/
def updateLastUsed (store : List Memory) (memoryId : Nat) (now : Nat) :
    List Memory :=
  store.map (fun r =>
    if r.memoryId == memoryId then { r with lastUsed := now } else r)

/-- `MemoryStore.delete_memory`. -/
def deleteMemory (store : List Memory) (memoryId : Nat) : List Memory :=
  store.filter (fun r => r.memoryId != memoryId)

/-- `MemoryStore.cleanup_expired`: snapshot all rows, delete each expired
one by id (the removed-row count it also returns is not modeled). -/
def cleanupExpired (store : List Memory) (now : Nat) : List Memory :=
  (store.filter (fun m => m.isExpired now)).foldl
    (fun st m => deleteMemory st m.memoryId) store

/-- The `UserProfile` dataclass. -/
structure UserProfile where
  userId : String
  morningProductivity : Bool
  eveningProductivity : Bool
  preferredWorkHours : Nat × Nat
  prefersShortTasks : Bool
  planningStyle : String
  needsFrequentBreaks : Bool
  distractedBySocial : Bool
  distractedByPhone : Bool
  longTermGoals : List String
  weeklyFocus : String
  preferredTone : String
  language : String
deriving DecidableEq, Repr

/-- `UserProfile(user_id=...)` with the dataclass field defaults. -/
def UserProfile.init (userId : String) : UserProfile :=
  { userId := userId, morningProductivity := false,
    eveningProductivity := false, preferredWorkHours := (9, 18),
    prefersShortTasks := true, planningStyle := "simple",
    needsFrequentBreaks := false, distractedBySocial := false,
    distractedByPhone := false, longTermGoals := [], weeklyFocus := "",
    preferredTone := "friendly", language := "zh-CN" }

/-- One iteration of the loop in `UserProfile.from_memories`. -/
def applyMemoryToProfile (p : UserProfile) (m : Memory) : UserProfile :=
  match m.mtype with
  | MemoryType.preference =>
    if m.key == "morning_productivity" then
      { p with morningProductivity := m.value.pyBool }
    else if m.key == "evening_productivity" then
      { p with eveningProductivity := m.value.pyBool }
    else if m.key == "prefers_short_tasks" then
      { p with prefersShortTasks := m.value.pyBool }
    else if m.key == "planning_style" then
      { p with planningStyle := m.value.pyStr }
    else if m.key == "preferred_tone" then
      { p with preferredTone := m.value.pyStr }
    else p
  | MemoryType.pattern =>
    if m.key == "distracted_by_social" then
      { p with distractedBySocial := m.value.pyBool }
    else if m.key == "distracted_by_phone" then
      { p with distractedByPhone := m.value.pyBool }
    else p
  | MemoryType.goal =>
    { p with longTermGoals := p.longTermGoals ++ [m.value.pyStr] }
  | _ => p

/-- `UserProfile.from_memories`. -/
def UserProfile.fromMemories (userId : String) (memories : List Memory) :
    UserProfile :=
  memories.foldl applyMemoryToProfile (UserProfile.init userId)

/-- The `MemoryManager` with the store it wraps and the id supply standing
in for `uuid.uuid4()`. -/
structure MemoryManager where
  store : List Memory
  nextId : Nat
deriving DecidableEq, Repr

/-- `MemoryManager.remember` (defaults at the Python call site:
`memoryType = preference`, `ttlDays = none`, `source = "user_input"`). -/
def MemoryManager.remember (mgr : MemoryManager) (now : Nat)
    (userId key : String) (value : MemValue) (memoryType : MemoryType)
    (ttlDays : Option Nat) (source : String) : MemoryManager :=
  let m : Memory :=
    { memoryId := mgr.nextId, userId := userId, mtype := memoryType,
      key := key, value := value, createdAt := now, lastUsed := now,
      ttlDays := ttlDays, confidence := 1, source := source }
  { store := addMemory mgr.store m, nextId := mgr.nextId + 1 }

/-- `MemoryManager.recall`: look the pair up; on a hit, bump `last_used`
of the found row and return its value; on a miss, return `None`. -/
def MemoryManager.recall (mgr : MemoryManager) (now : Nat)
    (userId key : String) : Option MemValue × MemoryManager :=
  match getMemory mgr.store userId key with
  | some m =>
    (some m.value,
     { mgr with store := updateLastUsed mgr.store m.memoryId now })
  | none => (none, mgr)

/-- `MemoryManager.get_user_profile`: fold the rows `get_memories`
returns (default limit 100) into the profile. -/
def MemoryManager.getUserProfile (mgr : MemoryManager) (userId : String) :
    UserProfile :=
  UserProfile.fromMemories userId (getMemories mgr.store userId 100)

/-! ## `agents/conversation_manager.py` — sessions and turns

The two SQLite tables are lists of rows in rowid (insertion) order;
`CURRENT_TIMESTAMP` is the `now` argument threaded into each operation. -/

/-- One row of the `conversations` table. -/
structure TurnRow where
  sessionId : String
  userId : String
  turnNumber : Nat
  userMessage : String
  assistantMessage : String
  intent : String
  intentConfidence : ℚ
  extractedData : Option String
  createdAt : Nat
deriving DecidableEq, Repr

/-- One row of the `sessions` table. -/
structure SessionRow where
  sessionId : String
  userId : String
  startedAt : Nat
  lastActiveAt : Nat
  totalTurns : Nat
  sessionSummary : Option String
deriving DecidableEq, Repr

structure ConversationDb where
  conversations : List TurnRow
  sessions : List SessionRow
deriving DecidableEq, Repr

/-- `ConversationManager.create_session` with an explicit session id:
`INSERT OR IGNORE`, with the column defaults `started_at = last_active_at
= CURRENT_TIMESTAMP` and `total_turns = 0`. -/
def createSession (db : ConversationDb) (now : Nat)
    (userId sessionId : String) : ConversationDb :=
  if db.sessions.any (fun s => s.sessionId == sessionId) then db
  else
    { db with sessions := db.sessions ++
        [{ sessionId := sessionId, userId := userId, startedAt := now,
           lastActiveAt := now, totalTurns := 0, sessionSummary := none }] }

/-- `SELECT COALESCE(MAX(turn_number), 0) FROM conversations WHERE
session_id = ?`. -/
def maxTurnNumber (db : ConversationDb) (sessionId : String) : Nat :=
  (db.conversations.filter (fun t => t.sessionId == sessionId)).foldl
    (fun m t => max m t.turnNumber) 0

/-- `ConversationManager.add_turn`: allocate `max + 1`, insert the turn
row, then `INSERT OR REPLACE` the session row.  The REPLACE deletes the
old session row and inserts a fresh one whose unlisted columns take their
schema defaults: `started_at` becomes `CURRENT_TIMESTAMP` again and
`session_summary` becomes NULL. -/
def addTurn (db : ConversationDb) (now : Nat)
    (sessionId userId userMessage assistantMessage intent : String)
    (intentConfidence : ℚ) (extractedData : Option String) :
    Nat × ConversationDb :=
  let turnNumber := maxTurnNumber db sessionId + 1
  let row : TurnRow :=
    { sessionId := sessionId, userId := userId, turnNumber := turnNumber,
      userMessage := userMessage, assistantMessage := assistantMessage,
      intent := intent, intentConfidence := intentConfidence,
      extractedData := extractedData, createdAt := now }
  let sessions :=
    db.sessions.filter (fun s => s.sessionId != sessionId) ++
      [{ sessionId := sessionId, userId := userId, startedAt := now,
         lastActiveAt := now, totalTurns := turnNumber,
         sessionSummary := none }]
  (turnNumber,
   { conversations := db.conversations ++ [row], sessions := sessions })

/-- The session's turn rows in table order. -/
def sessionTurns (db : ConversationDb) (sessionId : String) :
    List TurnRow :=
  db.conversations.filter (fun t => t.sessionId == sessionId)

/-- `ConversationManager.get_conversation_history`: the session's turns
`ORDER BY turn_number DESC LIMIT last_n`, then reversed so the oldest of
the selected turns comes first. -/
def getConversationHistory (db : ConversationDb) (sessionId : String)
    (lastN : Nat) : List TurnRow :=
  ((List.insertionSort (fun a b : TurnRow => b.turnNumber ≤ a.turnNumber)
      (sessionTurns db sessionId)).take lastN).reverse

/-! ## `agents/workflow_complete.py` — the complete workflow

The graph state (`AgentState` plus the extra channels
`context_continuation` / `priority_analysis` the nodes write) is a record;
a node returns a partial update that the executor merges into the state —
`analyzed_tasks` and `processing_steps` are the `operator.add` append
channels, every other returned key overwrites.

Each capability node has the shape `if self.llm: try: BODY except: pass`
followed by a deterministic fallback, where BODY formats a prompt, invokes
the external text generator (the opaque collaborator of spec §6), parses
its reply and builds the node's update.  The BODYs are therefore embedded
as collaborator functions returning `Except` — a generator exception makes
the body raise — while every fallback, the routing, the merge and `run`'s
exception handling are embedded from the source.  Python exceptions are
`Except.error`; the persistence `add_turn` call at the end of `run` is
wrapped in its own try/except and never alters the returned dict, so it
does not appear in the returned state. -/

/-- One task dict as the workflow's fallback path builds it (the keys the
orchestration code reads: `title`, `priority`). -/
structure STask where
  title : String
  priority : String
deriving DecidableEq, Repr

/-- The graph state threaded through `workflow_complete`. -/
structure AgentState where
  userInput : String
  userId : String
  sessionId : String
  conversationHistory : List TurnRow
  intent : String
  confidence : ℚ
  contextContinuation : Bool
  analyzedTasks : List STask
  priorityAnalysis : List (String × String)
  processingSteps : List String
  finalOutput : String
  timestamp : Nat
deriving DecidableEq, Repr

/-- A node's partial state update: `none` / `[]` means the key is absent
from the returned dict. -/
structure NodeUpdate where
  intent : Option String
  confidence : Option ℚ
  contextContinuation : Option Bool
  analyzedTasks : List STask
  priorityAnalysis : Option (List (String × String))
  finalOutput : Option String
  processingSteps : List String
deriving DecidableEq, Repr

/-- The empty update `{}`. -/
def NodeUpdate.empty : NodeUpdate :=
  { intent := none, confidence := none, contextContinuation := none,
    analyzedTasks := [], priorityAnalysis := none, finalOutput := none,
    processingSteps := [] }

/-- LangGraph's merge of a node update into the state: `analyzed_tasks`
and `processing_steps` append (`operator.add`), the rest overwrite when
present. -/
def applyUpdate (s : AgentState) (u : NodeUpdate) : AgentState :=
  { s with
    intent := u.intent.getD s.intent,
    confidence := u.confidence.getD s.confidence,
    contextContinuation := u.contextContinuation.getD s.contextContinuation,
    analyzedTasks := s.analyzedTasks ++ u.analyzedTasks,
    priorityAnalysis := u.priorityAnalysis.getD s.priorityAnalysis,
    processingSteps := s.processingSteps ++ u.processingSteps,
    finalOutput := u.finalOutput.getD s.finalOutput }

/-- The try-block bodies of the LLM-backed nodes: prompt construction,
the generator invocation and the reply post-processing, abstracted as the
external collaborator (spec §6).  When the generator raises, the body
raises. -/
structure LLMClient where
  intentBody : AgentState → Except String NodeUpdate
  taskBody : AgentState → Except String NodeUpdate
  emotionBody : AgentState → Except String NodeUpdate
  habitBody : AgentState → Except String NodeUpdate
  goalBody : AgentState → Except String NodeUpdate
  reflectionBody : AgentState → Except String NodeUpdate
  casualBody : AgentState → Except String NodeUpdate
  personalizationBody : AgentState → Except String NodeUpdate

/-- `_fallback_intent_detection`. -/
def fallbackIntentDetection (text : String) : String :=
  let textLower := pyLower text
  if containsAny textLower ["习惯", "坚持", "打卡"] then "habit_tracking"
  else if containsAny textLower ["目标", "想要", "计划", "实现", "学习"] then
    "goal_setting"
  else if containsAny textLower ["总结", "反思", "回顾", "复盘"] then
    "reflection"
  else if containsAny textLower ["累", "焦虑", "压力", "崩溃", "疲惫"] then
    "emotion_support"
  else if containsAny textLower ["任务", "要做", "整理", "待办", "安排"] then
    "task_management"
  else "casual_chat"

/-- The rule-matching update `_intent_recognition_node` returns when the
generator path is unavailable or raised. -/
def intentFallback (s : AgentState) : NodeUpdate :=
  { NodeUpdate.empty with
    intent := some (fallbackIntentDetection s.userInput),
    confidence := some 0.6,
    contextContinuation := some false,
    processingSteps := ["规则匹配: " ++ fallbackIntentDetection s.userInput] }

/-- `_intent_recognition_node`. -/
def intentRecognitionNode (llm : Option LLMClient) (s : AgentState) :
    NodeUpdate :=
  match llm with
  | some c =>
    match c.intentBody s with
    | Except.ok u => u
    | Except.error _ => intentFallback s
  | none => intentFallback s

/-- Python `text.split('\n')` on the character list. -/
def splitListNl : List Char → List (List Char)
  | [] => [[]]
  | c :: cs =>
    match splitListNl cs with
    | [] => [[]]
    | g :: gs => if c = '\n' then [] :: g :: gs else (c :: g) :: gs

/-- Python `text.split('\n')`. -/
def pySplitNl (s : String) : List String :=
  (splitListNl s.data).map (fun l => ⟨l⟩)

/-- Python `"\n".join(xs)`. -/
def joinNl (xs : List String) : String :=
  match xs with
  | [] => ""
  | x :: rest => rest.foldl (fun acc y => acc ++ "\n" ++ y) x

/-- The degraded-mode update of `_task_processing_node`: number the first
five non-blank stripped lines of the input as tasks. -/
def taskFallback (s : AgentState) : NodeUpdate :=
  let lines := ((pySplitNl s.userInput).map pyStrip).filter
    (fun l => l != "")
  let taskList := joinNl ((lines.take 5).enum.map
    (fun p => toString (p.fst + 1) ++ ". " ++ p.snd))
  { NodeUpdate.empty with
    analyzedTasks := (lines.take 5).map
      (fun l => { title := l, priority := "medium" }),
    finalOutput := some ("我帮你整理了任务：\n\n" ++ taskList ++
      "\n\n💡 建议先从最重要的开始！"),
    processingSteps := ["简单任务拆分（降级模式）"] }

/-- `_task_processing_node`. -/
def taskProcessingNode (llm : Option LLMClient) (s : AgentState) :
    NodeUpdate :=
  match llm with
  | some c =>
    match c.taskBody s with
    | Except.ok u => u
    | Except.error _ => taskFallback s
  | none => taskFallback s

/-- `_personalization_node`: returns `{}` with no generator, and `{}`
again when its try-block raises. -/
def personalizationNode (llm : Option LLMClient) (s : AgentState) :
    NodeUpdate :=
  match llm with
  | some c =>
    match c.personalizationBody s with
    | Except.ok u => u
    | Except.error _ => NodeUpdate.empty
  | none => NodeUpdate.empty

/-- The degraded update of `_emotion_support_node`. -/
def emotionFallback : NodeUpdate :=
  { NodeUpdate.empty with
    finalOutput :=
      some "我理解你现在的感受。要不要先休息一下，然后我们一起整理思路？",
    processingSteps := ["💚 简单情绪回应"] }

/-- `_emotion_support_node`. -/
def emotionSupportNode (llm : Option LLMClient) (s : AgentState) :
    NodeUpdate :=
  match llm with
  | some c =>
    match c.emotionBody s with
    | Except.ok u => u
    | Except.error _ => emotionFallback
  | none => emotionFallback

/-- The degraded update of `_habit_management_node`. -/
def habitFallback : NodeUpdate :=
  { NodeUpdate.empty with
    finalOutput := some "好的！要养成新习惯，建议：\n1. 从小目标开始\n2. 设定固定时间\n3. 记录打卡进度",
    processingSteps := ["🎯 简单习惯建议"] }

/-- `_habit_management_node`. -/
def habitManagementNode (llm : Option LLMClient) (s : AgentState) :
    NodeUpdate :=
  match llm with
  | some c =>
    match c.habitBody s with
    | Except.ok u => u
    | Except.error _ => habitFallback
  | none => habitFallback

/-- The degraded update of `_goal_planning_node`. -/
def goalFallback : NodeUpdate :=
  { NodeUpdate.empty with
    finalOutput := some "好的！让我们把大目标拆解成小步骤，一步步实现！\n\n建议从最简单的第一步开始。",
    processingSteps := ["🎯 简单目标建议"] }

/-- `_goal_planning_node`. -/
def goalPlanningNode (llm : Option LLMClient) (s : AgentState) :
    NodeUpdate :=
  match llm with
  | some c =>
    match c.goalBody s with
    | Except.ok u => u
    | Except.error _ => goalFallback
  | none => goalFallback

/-- The degraded update of `_reflection_guide_node`. -/
def reflectionFallback : NodeUpdate :=
  { NodeUpdate.empty with
    finalOutput := some "让我们一起回顾：\n\n1. ✅ 这段时间完成了什么？\n2. 💡 有什么收获？\n3. 🚀 下一步怎么做？",
    processingSteps := ["📝 简单反思引导"] }

/-- `_reflection_guide_node`. -/
def reflectionGuideNode (llm : Option LLMClient) (s : AgentState) :
    NodeUpdate :=
  match llm with
  | some c =>
    match c.reflectionBody s with
    | Except.ok u => u
    | Except.error _ => reflectionFallback
  | none => reflectionFallback

/-- The rule-based degraded reply of `_casual_response_node`. -/
def casualFallback (s : AgentState) : NodeUpdate :=
  let il := pyLower s.userInput
  let output :=
    if containsAny il ["你好", "hi", "hello", "嗨"] then
      "你好！我是 LifeOS 智能助理 😊\n\n我可以帮你：\n• 📋 管理任务和待办\n• 🎯 追踪习惯打卡\n• 🌟 设定和拆解目标\n• 📝 记录反思总结\n• 💚 提供情绪支持\n\n有什么可以帮到你的吗？"
    else if containsAny il ["功能", "能做", "可以做", "帮我"] then
      "我有这些能力：\n\n1. 📋 **任务管理**：整理待办，智能排序\n2. 🎯 **习惯追踪**：打卡记录，数据统计\n3. 🌟 **目标规划**：拆解目标，制定计划\n4. 📝 **反思总结**：定期回顾，持续改进\n5. 💚 **情绪支持**：倾听理解，温暖陪伴\n\n试试告诉我你现在想做什么吧！"
    else if containsAny il ["谢谢", "感谢", "thanks", "thx"] then
      "不客气！😊 很高兴能帮到你。\n\n有其他需要随时告诉我哦！"
    else if containsAny il ["再见", "bye", "拜拜"] then
      "再见！👋 记得随时回来找我，我会一直在这里支持你！"
    else
      "我在呢！😊 有什么可以帮你的吗？\n\n你可以告诉我你的任务、目标，或者只是聊聊天也可以~"
  { NodeUpdate.empty with
    finalOutput := some output,
    processingSteps := ["💬 友好回应"] }

/-- `_casual_response_node`. -/
def casualResponseNode (llm : Option LLMClient) (s : AgentState) :
    NodeUpdate :=
  match llm with
  | some c =>
    match c.casualBody s with
    | Except.ok u => u
    | Except.error _ => casualFallback s
  | none => casualFallback s

/-- `_output_generation_node`: keep an already-produced `final_output`;
otherwise synthesize a default from the intent and tasks. -/
def outputGenerationNode (s : AgentState) : NodeUpdate :=
  if s.finalOutput != "" then
    { NodeUpdate.empty with finalOutput := some s.finalOutput }
  else
    let output :=
      if s.intent == "task_management" then
        if s.analyzedTasks.length ≠ 0 then
          "好的！我帮你整理了 " ++ toString s.analyzedTasks.length ++
            " 个任务：\n\n" ++
            String.join ((s.analyzedTasks.take 5).enum.map
              (fun p => toString (p.fst + 1) ++ ". " ++ p.snd.title ++ "\n")) ++
            "\n💡 建议先从最重要的开始！"
        else "我理解了，让我们开始整理任务吧！"
      else "好的，我明白了！让我来帮你处理。"
    { NodeUpdate.empty with finalOutput := some output }

/-- The initial state `run` builds (the loaded history and `now` are
parameters). -/
def initialState (history : List TurnRow)
    (userInput userId sessionId : String) (timestamp : Nat) : AgentState :=
  { userInput := userInput, userId := userId, sessionId := sessionId,
    conversationHistory := history, intent := "", confidence := 0,
    contextContinuation := false, analyzedTasks := [],
    priorityAnalysis := [], processingSteps := [], finalOutput := "",
    timestamp := timestamp }

/-- One `workflow_app.invoke`: intent recognition, the conditional route
keyed on the intent (an intent absent from the routing table is the
`KeyError` LangGraph raises), the selected capability node, the optional
personalization enhancement after task processing (`_should_personalize`:
at least two analyzed tasks), and output generation. -/
def invokeWorkflow (llm : Option LLMClient) (s0 : AgentState) :
    Except String AgentState :=
  let s1 := applyUpdate s0 (intentRecognitionNode llm s0)
  if s1.intent == "task_management" then
    let s2 := applyUpdate s1 (taskProcessingNode llm s1)
    let s3 :=
      if 2 ≤ s2.analyzedTasks.length then
        applyUpdate s2 (personalizationNode llm s2)
      else s2
    Except.ok (applyUpdate s3 (outputGenerationNode s3))
  else if s1.intent == "emotion_support" then
    let s2 := applyUpdate s1 (emotionSupportNode llm s1)
    Except.ok (applyUpdate s2 (outputGenerationNode s2))
  else if s1.intent == "habit_tracking" then
    let s2 := applyUpdate s1 (habitManagementNode llm s1)
    Except.ok (applyUpdate s2 (outputGenerationNode s2))
  else if s1.intent == "goal_setting" then
    let s2 := applyUpdate s1 (goalPlanningNode llm s1)
    Except.ok (applyUpdate s2 (outputGenerationNode s2))
  else if s1.intent == "reflection" then
    let s2 := applyUpdate s1 (reflectionGuideNode llm s1)
    Except.ok (applyUpdate s2 (outputGenerationNode s2))
  else if s1.intent == "casual_chat" then
    let s2 := applyUpdate s1 (casualResponseNode llm s1)
    Except.ok (applyUpdate s2 (outputGenerationNode s2))
  else Except.error "KeyError"

/-- `CompleteLifeOSWorkflow.run`: build the initial state, invoke the
graph, and on any exception return the initial state with the apology
output; the subsequent `add_turn` persistence is inside its own
try/except and leaves the returned dict unchanged. -/
def runWorkflow (llm : Option LLMClient) (history : List TurnRow)
    (userInput userId sessionId : String) (timestamp : Nat) : AgentState :=
  let s0 := initialState history userInput userId sessionId timestamp
  match invokeWorkflow llm s0 with
  | Except.ok r => r
  | Except.error e =>
    { s0 with
      finalOutput := "抱歉，处理过程中出现了问题。请稍后再试。",
      processingSteps := ["错误: " ++ e] }

/-- The premise of the fallback guarantee: every invocation of the
external text generator raises, so every LLM try-block body raises. -/
structure AlwaysRaises (c : LLMClient) : Prop where
  onIntent : ∀ s, ∃ e, c.intentBody s = Except.error e
  onTask : ∀ s, ∃ e, c.taskBody s = Except.error e
  onEmotion : ∀ s, ∃ e, c.emotionBody s = Except.error e
  onHabit : ∀ s, ∃ e, c.habitBody s = Except.error e
  onGoal : ∀ s, ∃ e, c.goalBody s = Except.error e
  onReflection : ∀ s, ∃ e, c.reflectionBody s = Except.error e
  onCasual : ∀ s, ∃ e, c.casualBody s = Except.error e
  onPersonalization : ∀ s, ∃ e, c.personalizationBody s = Except.error e

/-! ## Concrete fixtures used by counterexamples and witnesses -/

/-- The manager after `remember(u, k, "w", type=GOAL)`,
`remember(u, k, "v1")`, `remember(u, k, "v2")` (the last two with the
default type `preference`), starting from an empty store. -/
def c5mgr : MemoryManager :=
  ((({ store := [], nextId := 0 } : MemoryManager).remember 0 "u" "k"
      (MemValue.vStr "w") MemoryType.goal none "user_input").remember 1
      "u" "k" (MemValue.vStr "v1") MemoryType.preference none
      "user_input").remember 2 "u" "k" (MemValue.vStr "v2")
    MemoryType.preference none "user_input"

/-- A goal entry with `ttl_days = 1` created at day 0. -/
def c6row : Memory :=
  { memoryId := 0, userId := "u", mtype := MemoryType.goal,
    key := "learn_python", value := MemValue.vStr "学习Python",
    createdAt := 0, lastUsed := 0, ttlDays := some 1, confidence := 1,
    source := "user_input" }

def c6mgr : MemoryManager := { store := [c6row], nextId := 1 }

/-- A non-expired preference entry. -/
def c6row2 : Memory :=
  { memoryId := 7, userId := "w", mtype := MemoryType.preference,
    key := "morning_productivity", value := MemValue.vBool true,
    createdAt := 3, lastUsed := 4, ttlDays := some 30, confidence := 1,
    source := "user_input" }

/-- The turn row `add_turn` inserts. -/
def newTurnRow (db : ConversationDb) (now : Nat)
    (sid uid um am i : String) (c : ℚ) (e : Option String) : TurnRow :=
  { sessionId := sid, userId := uid,
    turnNumber := maxTurnNumber db sid + 1, userMessage := um,
    assistantMessage := am, intent := i, intentConfidence := c,
    extractedData := e, createdAt := now }

/-- The database after three `add_turn`s on a fresh session. -/
def c8db : ConversationDb :=
  (addTurn (addTurn (addTurn { conversations := [], sessions := [] } 1 "s"
    "u" "m1" "a1" "task_management" 0.9 none).snd 2 "s" "u" "m2" "a2"
    "task_management" 0.9 none).snd 3 "s" "u" "m3" "a3" "casual_chat" 0.6
    none).snd

/-- The database after `create_session("u", "s")` at time 0. -/
def c9db : ConversationDb :=
  createSession { conversations := [], sessions := [] } 0 "u" "s"

/-- A generator client whose every call raises. -/
def c2client : LLMClient :=
  { intentBody := fun _ => Except.error "ConnectionError",
    taskBody := fun _ => Except.error "ConnectionError",
    emotionBody := fun _ => Except.error "ConnectionError",
    habitBody := fun _ => Except.error "ConnectionError",
    goalBody := fun _ => Except.error "ConnectionError",
    reflectionBody := fun _ => Except.error "ConnectionError",
    casualBody := fun _ => Except.error "ConnectionError",
    personalizationBody := fun _ => Except.error "ConnectionError" }

/-! ## Claim C1 -/

/-- **C1.** For every user input whose processed text (`lower` then `strip`,
as `classify` computes it) contains at least one emotion keyword or emotion
pattern match and at least one task keyword or task pattern match,
`IntentClassifier.classify` returns intent `mixed` with confidence exactly
0.85. -/
theorem classify_mixed_of_emotion_and_task (input : String)
    (he : collectSignals EMOTION_KEYWORDS EMOTION_PATTERNS
      (pyStrip (pyLower input)) ≠ [])
    (ht : collectSignals TASK_KEYWORDS TASK_PATTERNS
      (pyStrip (pyLower input)) ≠ []) :
    (IntentClassifier.classify input).intent = IntentType.mixed ∧
      (IntentClassifier.classify input).confidence = 0.85 := by
  unfold IntentClassifier.classify
  have he' : 0 < (collectSignals EMOTION_KEYWORDS EMOTION_PATTERNS
      (pyStrip (pyLower input))).length := List.length_pos.mpr he
  have ht' : 0 < (collectSignals TASK_KEYWORDS TASK_PATTERNS
      (pyStrip (pyLower input))).length := List.length_pos.mpr ht
  simp only [if_pos (And.intro he' ht')]
  simp

/-- Witness for C1 at the concrete input
"我感觉好崩溃，今天要写报告" (emotion signals: 崩溃, 我感觉, …; task
signals: 今天要, 写, …). -/
theorem classify_mixed_witness :
    (collectSignals EMOTION_KEYWORDS EMOTION_PATTERNS
        (pyStrip (pyLower "我感觉好崩溃，今天要写报告")) ≠ []) ∧
      (IntentClassifier.classify "我感觉好崩溃，今天要写报告").intent
        = IntentType.mixed ∧
      (IntentClassifier.classify "我感觉好崩溃，今天要写报告").confidence
        = 0.85 :=
  ⟨by decide,
   classify_mixed_of_emotion_and_task "我感觉好崩溃，今天要写报告"
     (by decide) (by decide)⟩

/-! ## Claims C3 and C4 -/

/-- Any step list built by mapping over a range where every produced step
has type `"core"` is kept whole by the core filter. -/
theorem filter_core_of_map (n : Nat) (f : Nat → ActionStepItem)
    (hf : ∀ i, (f i).stype = "core") :
    ((List.range n).map f).filter (fun s => s.stype == "core")
      = (List.range n).map f := by
  refine List.filter_eq_self.mpr ?_
  intro a ha
  obtain ⟨i, _, rfl⟩ := List.mem_map.mp ha
  simp [hf]

/-- **C3.** For `total_minutes ≥ 5`, `ActionDecompositionTool._run` returns
a step list whose first step has `estimated_minutes = 5` (the claim's
"`total_minutes` if smaller" case cannot arise once `total_minutes ≥ 5`),
with exactly `max 2 ((total_minutes - 5) // 30)` steps of type `"core"`
after it, and whose final step has type `"review"`. -/
theorem action_decompose_shape (task : String) (total : Int)
    (h : 5 ≤ total) :
    ((actionDecompose task total).steps.head?.map
        (fun s => s.estimatedMinutes) = some 5) ∧
    ((((actionDecompose task total).steps.filter
        (fun s => s.stype == "core")).length : Int)
        = max 2 ((total - 5).fdiv 30)) ∧
    ((actionDecompose task total).steps.getLast?.map (fun s => s.stype)
        = some "review") := by
  have hd : (0 : Int) ≤ (total - 5).fdiv 30 :=
    Int.fdiv_nonneg (by omega) (by norm_num)
  have hn : (0 : Int) ≤ max 2 ((total - 5).fdiv 30) :=
    le_trans (by norm_num) (le_max_left _ _)
  refine ⟨?_, ?_, ?_⟩
  · simp [actionDecompose]
  · simp only [actionDecompose, List.cons_append, List.filter_cons,
      List.filter_append]
    rw [filter_core_of_map _ _ (fun i => rfl)]
    simp [Int.toNat_of_nonneg hn]
  · simp only [actionDecompose]
    rw [List.getLast?_concat]
    rfl

/-- Witness for C3 at `total_minutes = 65`. -/
theorem action_decompose_witness :
    (5 : Int) ≤ 65 ∧
    (((actionDecompose "写报告" 65).steps.head?.map
        (fun s => s.estimatedMinutes) = some 5) ∧
    ((((actionDecompose "写报告" 65).steps.filter
        (fun s => s.stype == "core")).length : Int)
        = max 2 (((65 : Int) - 5).fdiv 30)) ∧
    ((actionDecompose "写报告" 65).steps.getLast?.map (fun s => s.stype)
        = some "review")) :=
  ⟨by decide, action_decompose_shape "写报告" 65 (by decide)⟩

/-- **C4.** Every analyzed task is assigned to exactly one of
high/medium/low (the conjunction of the three iffs forces exactly one
membership), with the buckets characterized exactly as the claim states,
and every task the analyzer flagged `can_defer` has importance < 7 and
urgency < 7. -/
theorem priority_sort_partition (descs : List String) (t : AnalyzedTask)
    (ht : t ∈ taskAnalysisRun descs) :
    (t ∈ (prioritySort (taskAnalysisRun descs)).highPriority ↔
        (7 ≤ t.importance ∧ 7 ≤ t.urgency) ∨ 9 ≤ t.urgency) ∧
    (t ∈ (prioritySort (taskAnalysisRun descs)).mediumPriority ↔
        ¬((7 ≤ t.importance ∧ 7 ≤ t.urgency) ∨ 9 ≤ t.urgency) ∧
          ((6 ≤ t.importance ∧ 5 ≤ t.urgency) ∨ 8 ≤ t.importance)) ∧
    (t ∈ (prioritySort (taskAnalysisRun descs)).lowPriority ↔
        ¬((7 ≤ t.importance ∧ 7 ≤ t.urgency) ∨ 9 ≤ t.urgency) ∧
          ¬((6 ≤ t.importance ∧ 5 ≤ t.urgency) ∨ 8 ≤ t.importance)) ∧
    (t.canDefer = true → t.importance < 7 ∧ t.urgency < 7) := by
  refine ⟨?_, ?_, ?_, ?_⟩
  · simp [prioritySort, List.mem_filter, ht, highCond]
  · simp [prioritySort, List.mem_filter, ht, highCond, medCond]
    omega
  · simp [prioritySort, List.mem_filter, ht, highCond, medCond]
    omega
  · obtain ⟨d, _, rfl⟩ := List.mem_map.mp ht
    have hc : (analyzeTask d).canDefer =
        (decide ((analyzeTask d).urgency < 7) &&
          decide ((analyzeTask d).importance < 7)) := rfl
    intro hdef
    rw [hc] at hdef
    simp at hdef
    exact ⟨hdef.2, hdef.1⟩

/-- Witness for C4 on the analyzed task list of
`["写报告", "回复邮件"]`, at the analyzed first task. -/
theorem priority_sort_witness :
    analyzeTask "写报告" ∈ taskAnalysisRun ["写报告", "回复邮件"] ∧
    ((analyzeTask "写报告" ∈
        (prioritySort (taskAnalysisRun ["写报告", "回复邮件"])).highPriority ↔
        (7 ≤ (analyzeTask "写报告").importance ∧
            7 ≤ (analyzeTask "写报告").urgency) ∨
          9 ≤ (analyzeTask "写报告").urgency) ∧
    (analyzeTask "写报告" ∈
        (prioritySort (taskAnalysisRun ["写报告", "回复邮件"])).mediumPriority ↔
        ¬((7 ≤ (analyzeTask "写报告").importance ∧
            7 ≤ (analyzeTask "写报告").urgency) ∨
          9 ≤ (analyzeTask "写报告").urgency) ∧
          ((6 ≤ (analyzeTask "写报告").importance ∧
              5 ≤ (analyzeTask "写报告").urgency) ∨
            8 ≤ (analyzeTask "写报告").importance)) ∧
    (analyzeTask "写报告" ∈
        (prioritySort (taskAnalysisRun ["写报告", "回复邮件"])).lowPriority ↔
        ¬((7 ≤ (analyzeTask "写报告").importance ∧
            7 ≤ (analyzeTask "写报告").urgency) ∨
          9 ≤ (analyzeTask "写报告").urgency) ∧
          ¬((6 ≤ (analyzeTask "写报告").importance ∧
              5 ≤ (analyzeTask "写报告").urgency) ∨
            8 ≤ (analyzeTask "写报告").importance)) ∧
    ((analyzeTask "写报告").canDefer = true →
        (analyzeTask "写报告").importance < 7 ∧
          (analyzeTask "写报告").urgency < 7)) :=
  ⟨by decide,
   priority_sort_partition ["写报告", "回复邮件"] (analyzeTask "写报告")
     (by decide)⟩

/-! ## Claim C5

The SQLite identity of a memory row is the `UNIQUE(user_id, type, key)`
triple, not the `(user_id, key)` pair the claim states: two `remember`
calls with different memory types create two rows for the same pair, and
`recall` then returns the older row. -/

/-- **C5 counterexample.** After `remember(u,k,v1)`; `remember(u,k,v2)` on
a store that already holds a `(u, k)` row of another type (put there by
`remember` with `memory_type=GOAL`), the store holds two `(u, k)` rows and
`recall(u, k)` returns the goal row's value, not `v2`: identity is
`(user_id, type, key)`, not the pair. -/
theorem remember_pair_identity_cex :
    (c5mgr.recall 3 "u" "k").fst = some (MemValue.vStr "w") ∧
    (c5mgr.recall 3 "u" "k").fst ≠ some (MemValue.vStr "v2") ∧
    (c5mgr.store.filter
        (fun r => r.userId == "u" && r.key == "k")).length = 2 := by
  decide

/-- After two `addMemory` inserts that agree on `(user_id, type, key)`, on
a store whose `(user_id, key)` rows all already carry that type, exactly
the second insert survives the pair filter. -/
theorem addMemory_twice_filter_pair (store : List Memory) (m1 m2 : Memory)
    (hu1 : m1.userId = m2.userId) (hk1 : m1.key = m2.key)
    (hty1 : m1.mtype = m2.mtype)
    (h : ∀ r ∈ store, r.userId = m2.userId → r.key = m2.key →
        r.mtype = m2.mtype) :
    (addMemory (addMemory store m1) m2).filter
      (fun r => r.userId == m2.userId && r.key == m2.key) = [m2] := by
  have hm1 : conflictsWith m2 m1 = true := by
    simp [conflictsWith, hu1, hk1, hty1]
  simp only [addMemory, List.filter_append]
  have e1 : List.filter (fun r => !conflictsWith m2 r) [m1] = [] := by
    simp [hm1]
  have e2 : List.filter
      (fun r => r.userId == m2.userId && r.key == m2.key) [m2] = [m2] := by
    simp
  have e0 : ((store.filter (fun r => !conflictsWith m1 r)).filter
      (fun r => !conflictsWith m2 r)).filter
        (fun r => r.userId == m2.userId && r.key == m2.key) = [] := by
    rw [List.filter_eq_nil_iff]
    intro a ha hpair
    obtain ⟨ha1, hg2⟩ := List.mem_filter.mp ha
    obtain ⟨ha0, _⟩ := List.mem_filter.mp ha1
    have hp : a.userId = m2.userId ∧ a.key = m2.key := by simpa using hpair
    have hc : conflictsWith m2 a = true := by
      simp [conflictsWith, hp.1, hp.2, h a ha0 hp.1 hp.2]
    simp [hc] at hg2
  rw [e1, e0]
  simp

/-- **C5 amended.** `remember` overwrites in place when the memory type
also matches: for any manager state whose `(u, k)` rows all have type
`ty`, after `remember(u,k,v1)` and `remember(u,k,v2)` with type `ty`,
`recall(u,k)` returns `v2` and the store holds exactly one `(u, k)` row —
the row identity is the `(user_id, type, key)` triple, not a generated
id. -/
theorem remember_same_type_last_write_wins (mgr : MemoryManager)
    (u k : String) (v1 v2 : MemValue) (ty : MemoryType) (t1 t2 t3 : Nat)
    (hty : ∀ r ∈ mgr.store, r.userId = u → r.key = k → r.mtype = ty) :
    (((mgr.remember t1 u k v1 ty none "user_input").remember t2 u k v2 ty
        none "user_input").recall t3 u k).fst = some v2 ∧
    ((((mgr.remember t1 u k v1 ty none "user_input").remember t2 u k v2 ty
        none "user_input").store).filter
        (fun r => r.userId == u && r.key == k)).length = 1 := by
  have key : (((mgr.remember t1 u k v1 ty none "user_input").remember t2
      u k v2 ty none "user_input").store).filter
        (fun r => r.userId == u && r.key == k) =
      [{ memoryId := mgr.nextId + 1, userId := u, mtype := ty, key := k,
         value := v2, createdAt := t2, lastUsed := t2, ttlDays := none,
         confidence := 1, source := "user_input" }] := by
    exact addMemory_twice_filter_pair mgr.store
      { memoryId := mgr.nextId, userId := u, mtype := ty, key := k,
        value := v1, createdAt := t1, lastUsed := t1, ttlDays := none,
        confidence := 1, source := "user_input" }
      { memoryId := mgr.nextId + 1, userId := u, mtype := ty, key := k,
        value := v2, createdAt := t2, lastUsed := t2, ttlDays := none,
        confidence := 1, source := "user_input" }
      rfl rfl rfl (fun r hr hru hrk => hty r hr hru hrk)
  constructor
  · have hg : getMemory (((mgr.remember t1 u k v1 ty none
        "user_input").remember t2 u k v2 ty none "user_input").store) u k =
        some { memoryId := mgr.nextId + 1, userId := u, mtype := ty,
               key := k, value := v2, createdAt := t2, lastUsed := t2,
               ttlDays := none, confidence := 1,
               source := "user_input" } := by
      unfold getMemory
      rw [key]
      rfl
    unfold MemoryManager.recall
    rw [hg]
  · rw [key]
    rfl

/-- Witness for the amended C5 on the empty manager. -/
theorem remember_same_type_witness :
    (∀ r ∈ ({ store := [], nextId := 0 } : MemoryManager).store,
        r.userId = "u" → r.key = "k" → r.mtype = MemoryType.preference) ∧
    (((({ store := [], nextId := 0 } : MemoryManager).remember 4 "u" "k"
        (MemValue.vStr "v1") MemoryType.preference none
        "user_input").remember 5 "u" "k" (MemValue.vStr "v2")
        MemoryType.preference none "user_input").recall 6 "u" "k").fst
      = some (MemValue.vStr "v2") ∧
    ((((({ store := [], nextId := 0 } : MemoryManager).remember 4 "u" "k"
        (MemValue.vStr "v1") MemoryType.preference none
        "user_input").remember 5 "u" "k" (MemValue.vStr "v2")
        MemoryType.preference none "user_input").store).filter
        (fun r => r.userId == "u" && r.key == "k")).length = 1 :=
  ⟨by decide,
   (remember_same_type_last_write_wins
      { store := [], nextId := 0 } "u" "k" (MemValue.vStr "v1")
      (MemValue.vStr "v2") MemoryType.preference 4 5 6
      (by decide)).1,
   (remember_same_type_last_write_wins
      { store := [], nextId := 0 } "u" "k" (MemValue.vStr "v1")
      (MemValue.vStr "v2") MemoryType.preference 4 5 6
      (by decide)).2⟩

/-! ## Claim C6

`MemoryManager.get_user_profile` folds `store.get_memories(user_id)`,
which applies no expiry filter: an expired entry keeps contributing to
the profile until `cleanup_expired` physically removes it. -/

/-- **C6 counterexample.** At day 5 the entry is expired
(`5 - 0 > ttl_days = 1`) and has not been swept, yet `get_user_profile`
still folds it in: the computed profile lists its goal, so the expired
entry contributes to the projection. -/
theorem profile_includes_expired_cex :
    Memory.isExpired 5 c6row = true ∧
    (c6mgr.getUserProfile "u").longTermGoals = ["学习Python"] ∧
    c6mgr.getUserProfile "u" ≠ UserProfile.init "u" := by
  decide

/-- Surviving the sweep's fold of deletions means surviving every single
deletion. -/
theorem mem_foldl_deleteMemory (l : List Memory) (st : List Memory)
    (r : Memory)
    (h : r ∈ l.foldl (fun s m => deleteMemory s m.memoryId) st) :
    r ∈ st ∧ ∀ m ∈ l, r.memoryId ≠ m.memoryId := by
  induction l generalizing st with
  | nil => exact ⟨h, by simp⟩
  | cons m l ih =>
    obtain ⟨hst, hrest⟩ := ih (deleteMemory st m.memoryId) h
    obtain ⟨hst0, hne⟩ := List.mem_filter.mp hst
    refine ⟨hst0, ?_⟩
    intro m' hm'
    rcases hm' with _ | hm'
    · simpa using hne
    · exact hrest m' (by assumption)

/-- **C6 amended.** `get_user_profile` folds the user's stored rows with
no expiry check; an expired entry stops contributing only once the sweep
has removed it.  After `cleanup_expired` runs at time `now`, every row the
profile fold reads is non-expired. -/
theorem getMemories_after_sweep_not_expired (store : List Memory)
    (now : Nat) (userId : String) (r : Memory)
    (hr : r ∈ getMemories (cleanupExpired store now) userId 100) :
    Memory.isExpired now r = false := by
  have h1 : r ∈ cleanupExpired store now := by
    have h2 := List.mem_of_mem_take hr
    have h3 := (List.mem_insertionSort
      (fun a b : Memory => b.lastUsed ≤ a.lastUsed)).mp h2
    exact (List.mem_filter.mp h3).1
  obtain ⟨_, hall⟩ := mem_foldl_deleteMemory _ _ _ h1
  by_contra hx
  have hex : Memory.isExpired now r = true := by
    cases hc : Memory.isExpired now r
    · exact absurd hc hx
    · rfl
  exact hall r (List.mem_filter.mpr ⟨(mem_foldl_deleteMemory _ _ _ h1).1,
    hex⟩) rfl

/-- Witness for the amended C6. -/
theorem getMemories_after_sweep_witness :
    c6row2 ∈ getMemories (cleanupExpired [c6row2] 5) "w" 100 ∧
    Memory.isExpired 5 c6row2 = false :=
  ⟨by decide,
   getMemories_after_sweep_not_expired [c6row2] 5 "w" c6row2 (by decide)⟩

/-! ## Claim C10 -/

/-- **C10.** If no memory row is stored for `(user_id, key)`, `recall`
returns `None` and leaves the manager (in particular every row's
`last_used`) unchanged. -/
theorem recall_missing_is_noop (mgr : MemoryManager) (now : Nat)
    (u k : String)
    (h : ∀ r ∈ mgr.store, ¬(r.userId = u ∧ r.key = k)) :
    mgr.recall now u k = (none, mgr) := by
  have hg : getMemory mgr.store u k = none := by
    unfold getMemory
    have : mgr.store.filter (fun r => r.userId == u && r.key == k) = [] := by
      rw [List.filter_eq_nil_iff]
      intro a ha hpair
      exact h a ha (by simpa using hpair)
    rw [this]
    rfl
  unfold MemoryManager.recall
  rw [hg]

/-- Witness for C10: a store holding only an unrelated row. -/
theorem recall_missing_witness :
    (∀ r ∈ ({ store := [c6row2], nextId := 8 } : MemoryManager).store,
        ¬(r.userId = "u" ∧ r.key = "missing")) ∧
    ({ store := [c6row2], nextId := 8 } : MemoryManager).recall 9 "u"
        "missing" =
      (none, { store := [c6row2], nextId := 8 }) :=
  ⟨by decide,
   recall_missing_is_noop { store := [c6row2], nextId := 8 } 9 "u"
     "missing" (by decide)⟩

/-! ## Claim C7 -/

/-- **C7.** `add_turn` allocates `1 + max(existing turn_number for the
session, default 0)`; on a session with no stored turns, three sequential
calls return 1, 2 and 3. -/
theorem add_turn_numbering (db : ConversationDb) (sid : String)
    (n1 n2 n3 : Nat) (u1 u2 u3 m1 m2 m3 a1 a2 a3 i1 i2 i3 : String)
    (c1 c2 c3 : ℚ) (e1 e2 e3 : Option String) :
    (addTurn db n1 sid u1 m1 a1 i1 c1 e1).fst
        = maxTurnNumber db sid + 1 ∧
    (sessionTurns db sid = [] →
      (addTurn db n1 sid u1 m1 a1 i1 c1 e1).fst = 1 ∧
      (addTurn (addTurn db n1 sid u1 m1 a1 i1 c1 e1).snd n2 sid u2 m2 a2
          i2 c2 e2).fst = 2 ∧
      (addTurn (addTurn (addTurn db n1 sid u1 m1 a1 i1 c1 e1).snd n2 sid
          u2 m2 a2 i2 c2 e2).snd n3 sid u3 m3 a3 i3 c3 e3).fst = 3) := by
  constructor
  · rfl
  · intro hfresh
    have hfresh' : db.conversations.filter
        (fun t => t.sessionId == sid) = [] := hfresh
    refine ⟨?_, ?_, ?_⟩ <;>
      simp [addTurn, maxTurnNumber, List.filter_append, hfresh']

/-- Witness for C7 on the empty database. -/
theorem add_turn_numbering_witness :
    sessionTurns { conversations := [], sessions := [] } "s" = [] ∧
    ((addTurn { conversations := [], sessions := [] } 1 "s" "u" "m1" "a1"
        "task_management" 0.9 none).fst = 1 ∧
      (addTurn (addTurn { conversations := [], sessions := [] } 1 "s" "u"
          "m1" "a1" "task_management" 0.9 none).snd 2 "s" "u" "m2" "a2"
          "task_management" 0.9 none).fst = 2 ∧
      (addTurn (addTurn (addTurn { conversations := [], sessions := [] } 1
          "s" "u" "m1" "a1" "task_management" 0.9 none).snd 2 "s" "u" "m2"
          "a2" "task_management" 0.9 none).snd 3 "s" "u" "m3" "a3"
          "casual_chat" 0.6 none).fst = 3) :=
  ⟨by decide,
   (add_turn_numbering { conversations := [], sessions := [] } "s" 1 2 3
      "u" "u" "u" "m1" "m2" "m3" "a1" "a2" "a3" "task_management"
      "task_management" "casual_chat" 0.9 0.9 0.6 none none none).2
     (by decide)⟩

/-! ## Claim C8 -/

/-- Inserting an element below everything in the list lands at its end. -/
theorem orderedInsert_of_forall_not {α : Type} (r : α → α → Prop)
    [DecidableRel r] (a : α) (l : List α) (h : ∀ b ∈ l, ¬r a b) :
    List.orderedInsert r a l = l ++ [a] := by
  induction l with
  | nil => rfl
  | cons b t ih =>
    rw [List.orderedInsert, if_neg (h b (by simp))]
    rw [ih (fun x hx => h x (by simp [hx]))]
    rfl

/-- Sorting a strictly ascending list into descending order reverses it. -/
theorem insertionSort_desc_of_ascending (l : List TurnRow)
    (h : l.Pairwise (fun x y => x.turnNumber < y.turnNumber)) :
    List.insertionSort (fun a b : TurnRow => b.turnNumber ≤ a.turnNumber) l
      = l.reverse := by
  induction l with
  | nil => rfl
  | cons a t ih =>
    obtain ⟨ha, ht⟩ := List.pairwise_cons.mp h
    rw [List.insertionSort, ih ht,
      orderedInsert_of_forall_not _ a t.reverse (by
        intro b hb
        have := ha b (by simpa using hb)
        omega)]
    simp

/-- **C8.** When the session's stored turns have strictly ascending turn
numbers (the invariant `add_turn` maintains), `get_conversation_history`
with `last_n = n` returns exactly the last `n` stored turns — the most
recently added ones — in ascending turn-number order. -/
theorem get_history_last_n_ascending (db : ConversationDb) (sid : String)
    (n : Nat)
    (h : (sessionTurns db sid).Pairwise
        (fun x y => x.turnNumber < y.turnNumber)) :
    getConversationHistory db sid n =
      (sessionTurns db sid).drop ((sessionTurns db sid).length - n) := by
  unfold getConversationHistory
  rw [insertionSort_desc_of_ascending _ h, List.take_reverse,
    List.reverse_reverse]

/-- The fold's accumulator only grows. -/
theorem init_le_foldl_max (l : List TurnRow) (init : Nat) :
    init ≤ l.foldl (fun m t => max m t.turnNumber) init := by
  induction l generalizing init with
  | nil => exact le_refl _
  | cons b t ih => exact le_trans (le_max_left _ _) (ih _)

/-- Every member's turn number is bounded by the fold of `max`. -/
theorem le_foldl_max (l : List TurnRow) (init : Nat) (x : TurnRow)
    (hx : x ∈ l) :
    x.turnNumber ≤ l.foldl (fun m t => max m t.turnNumber) init := by
  induction l generalizing init with
  | nil => cases hx
  | cons b t ih =>
    rcases List.mem_cons.mp hx with rfl | hx'
    · exact le_trans (le_max_right _ _) (init_le_foldl_max t _)
    · exact ih _ hx'

/-- `add_turn` keeps every session's stored turn numbers strictly
ascending (the invariant the C8 theorem assumes). -/
theorem addTurn_preserves_ascending (db : ConversationDb) (now : Nat)
    (sid uid um am i : String) (c : ℚ) (e : Option String) (s' : String)
    (h : (sessionTurns db s').Pairwise
        (fun x y => x.turnNumber < y.turnNumber)) :
    (sessionTurns (addTurn db now sid uid um am i c e).snd s').Pairwise
      (fun x y => x.turnNumber < y.turnNumber) := by
  have hrow : sessionTurns (addTurn db now sid uid um am i c e).snd s' =
      sessionTurns db s' ++
        List.filter (fun t => t.sessionId == s')
          [newTurnRow db now sid uid um am i c e] := by
    simp only [sessionTurns, addTurn, newTurnRow, List.filter_append]
  rw [hrow]
  by_cases hss : sid = s'
  · subst hss
    have hone : List.filter (fun t => t.sessionId == sid)
        [newTurnRow db now sid uid um am i c e] =
        [newTurnRow db now sid uid um am i c e] := by
      simp [newTurnRow]
    rw [hone]
    refine List.pairwise_append.mpr ⟨h, List.pairwise_singleton _ _, ?_⟩
    intro x hx y hy
    have hy' : y = newTurnRow db now sid uid um am i c e := by
      simpa using hy
    subst hy'
    have hb : x.turnNumber ≤ maxTurnNumber db sid :=
      le_foldl_max _ 0 x hx
    simp only [newTurnRow]
    omega
  · have hnone : List.filter (fun t => t.sessionId == s')
        [newTurnRow db now sid uid um am i c e] = [] := by
      simp [newTurnRow, hss]
    rw [hnone, List.append_nil]
    exact h

/-- Witness for C8: after three turns, `get_history(s, last_n=2)` returns
turn 2 followed by turn 3. -/
theorem get_history_witness :
    (sessionTurns c8db "s").Pairwise
        (fun x y => x.turnNumber < y.turnNumber) ∧
    getConversationHistory c8db "s" 2 =
      (sessionTurns c8db "s").drop ((sessionTurns c8db "s").length - 2) ∧
    (getConversationHistory c8db "s" 2).map (fun t => t.turnNumber)
      = [2, 3] :=
  ⟨by decide, get_history_last_n_ascending c8db "s" 2 (by decide),
   by decide⟩

/-! ## Claim C9 -/

/-- **C9 (code bug).** The claim matches the spec's intent, but
`add_turn`'s `INSERT OR REPLACE` on `sessions` re-creates the row, so the
unlisted `started_at` column silently reverts to its default
`CURRENT_TIMESTAMP`: a session created at time 0 shows `started_at = 5`
after a turn is appended at time 5 (and `session_summary` is nulled).
Evaluated at the failing input. -/
theorem add_turn_resets_started_at :
    c9db.sessions.map (fun s => s.startedAt) = [0] ∧
    ((addTurn c9db 5 "s" "u" "你好" "你好！" "casual_chat" 0.6
        none).snd.sessions.map (fun s => s.startedAt)) = [5] ∧
    ((addTurn c9db 5 "s" "u" "你好" "你好！" "casual_chat" 0.6
        none).snd.sessions.map (fun s => s.startedAt)) ≠ [0] := by
  decide

/-! ## Claim C2 -/

/-- A string with a non-empty left part is non-empty. -/
theorem strAppend_ne_empty (a b : String) (ha : a ≠ "") : a ++ b ≠ "" := by
  intro hab
  apply ha
  have hd : a.data ++ b.data = [] := by
    have h0 := congrArg String.data hab
    simpa [String.data_append] using h0
  exact String.ext (List.append_eq_nil.mp hd).1

/-- Output generation always leaves a non-empty `final_output`: it keeps
a non-empty one and synthesizes a non-empty default otherwise. -/
theorem outputGen_nonempty (s : AgentState) :
    (applyUpdate s (outputGenerationNode s)).finalOutput ≠ "" := by
  by_cases h : s.finalOutput = ""
  · simp only [outputGenerationNode, h]
    simp only [bne_self_eq_false, Bool.false_eq_true, if_false,
      applyUpdate, Option.getD_some]
    split_ifs with h1 h2
    · apply strAppend_ne_empty
      apply strAppend_ne_empty
      apply strAppend_ne_empty
      apply strAppend_ne_empty
      decide
    · decide
    · decide
  · have hk : (applyUpdate s (outputGenerationNode s)).finalOutput
        = s.finalOutput := by
      have hb : (s.finalOutput != "") = true := by
        simpa [bne_iff_ne] using h
      simp [outputGenerationNode, hb, applyUpdate]
    rw [hk]
    exact h

/-- With an always-raising generator, one graph invocation succeeds and
produces a non-empty `final_output`, whatever the input state. -/
theorem invoke_ok_of_raising (c : LLMClient) (h : AlwaysRaises c)
    (s0 : AgentState) :
    ∃ s', invokeWorkflow (some c) s0 = Except.ok s' ∧
      s'.finalOutput ≠ "" := by
  have e1 : intentRecognitionNode (some c) s0 = intentFallback s0 := by
    obtain ⟨e, he⟩ := h.onIntent s0
    simp [intentRecognitionNode, he]
  have hintent : (applyUpdate s0 (intentFallback s0)).intent =
      fallbackIntentDetection s0.userInput := by
    simp [applyUpdate, intentFallback, NodeUpdate.empty]
  have hcases : fallbackIntentDetection s0.userInput = "habit_tracking" ∨
      fallbackIntentDetection s0.userInput = "goal_setting" ∨
      fallbackIntentDetection s0.userInput = "reflection" ∨
      fallbackIntentDetection s0.userInput = "emotion_support" ∨
      fallbackIntentDetection s0.userInput = "task_management" ∨
      fallbackIntentDetection s0.userInput = "casual_chat" := by
    simp only [fallbackIntentDetection]
    split_ifs <;> simp
  unfold invokeWorkflow
  simp only [e1]
  rcases hcases with hc | hc | hc | hc | hc | hc <;>
    simp only [hintent, hc] <;>
    simp only [show (("habit_tracking" : String) == "task_management")
        = false from by decide,
      show (("habit_tracking" : String) == "emotion_support")
        = false from by decide,
      show (("habit_tracking" : String) == "habit_tracking")
        = true from by decide,
      show (("goal_setting" : String) == "task_management")
        = false from by decide,
      show (("goal_setting" : String) == "emotion_support")
        = false from by decide,
      show (("goal_setting" : String) == "habit_tracking")
        = false from by decide,
      show (("goal_setting" : String) == "goal_setting")
        = true from by decide,
      show (("reflection" : String) == "task_management")
        = false from by decide,
      show (("reflection" : String) == "emotion_support")
        = false from by decide,
      show (("reflection" : String) == "habit_tracking")
        = false from by decide,
      show (("reflection" : String) == "goal_setting")
        = false from by decide,
      show (("reflection" : String) == "reflection")
        = true from by decide,
      show (("emotion_support" : String) == "task_management")
        = false from by decide,
      show (("emotion_support" : String) == "emotion_support")
        = true from by decide,
      show (("task_management" : String) == "task_management")
        = true from by decide,
      show (("casual_chat" : String) == "task_management")
        = false from by decide,
      show (("casual_chat" : String) == "emotion_support")
        = false from by decide,
      show (("casual_chat" : String) == "habit_tracking")
        = false from by decide,
      show (("casual_chat" : String) == "goal_setting")
        = false from by decide,
      show (("casual_chat" : String) == "reflection")
        = false from by decide,
      show (("casual_chat" : String) == "casual_chat")
        = true from by decide,
      if_true, if_false, Bool.false_eq_true, Bool.true_eq_false] <;>
    exact ⟨_, rfl, outputGen_nonempty _⟩

/-- **C2.** If every invocation of the external text generator raises,
then for every user input (hence every intent branch the fallback
detector can select), the graph invocation completes without an
exception and `run` returns a state whose `final_output` is a non-empty
string — and `run` itself catches any invocation failure, so no exception
escapes it. -/
theorem run_fallback_guarantee (c : LLMClient) (h : AlwaysRaises c)
    (history : List TurnRow) (input uid sid : String) (ts : Nat) :
    (invokeWorkflow (some c)
        (initialState history input uid sid ts)).isOk = true ∧
    (runWorkflow (some c) history input uid sid ts).finalOutput ≠ "" := by
  obtain ⟨s', hs', hne⟩ :=
    invoke_ok_of_raising c h (initialState history input uid sid ts)
  constructor
  · rw [hs']
    rfl
  · simp only [runWorkflow]
    rw [hs']
    exact hne

/-- Witness for C2 with the always-raising client on a concrete input. -/
theorem run_fallback_witness :
    AlwaysRaises c2client ∧
    ((invokeWorkflow (some c2client)
        (initialState [] "我感觉好累" "u1" "s1" 0)).isOk = true ∧
    (runWorkflow (some c2client) [] "我感觉好累" "u1" "s1"
        0).finalOutput ≠ "") := by
  have hAR : AlwaysRaises c2client :=
    ⟨fun _ => ⟨"ConnectionError", rfl⟩, fun _ => ⟨"ConnectionError", rfl⟩,
     fun _ => ⟨"ConnectionError", rfl⟩, fun _ => ⟨"ConnectionError", rfl⟩,
     fun _ => ⟨"ConnectionError", rfl⟩, fun _ => ⟨"ConnectionError", rfl⟩,
     fun _ => ⟨"ConnectionError", rfl⟩, fun _ => ⟨"ConnectionError", rfl⟩⟩
  exact ⟨hAR, run_fallback_guarantee c2client hAR [] "我感觉好累" "u1"
    "s1" 0⟩

end LifeOS
